import Mathlib

/-!
# Verification of the CourseSchedule plugin's schedule-computation engine

Shallow embedding of the schedule engine of `astrbot_plugin_CourseSchedule`
(`main.py`, `image_generator.py`, `schedule_helper.py`) and proofs about it.

Time model: instants are `Int` seconds since the Unix epoch (timezone-aware
`datetime` values compare and subtract by absolute instant, which this
representation captures exactly).  The configured local timezone is the
hard-coded `timezone(timedelta(hours=8))` (Shanghai, fixed offset, no DST),
so local wall-clock fields are recovered by adding a constant offset.
-/

namespace CourseSchedule

/-- Fixed UTC+8 offset used throughout the plugin (`timezone(timedelta(hours=8))`). -/
def shanghaiOffset : Int := 8 * 3600

def secsPerDay : Int := 86400

/-- `t.astimezone(shanghai_tz).date()` as a day index: the local calendar day
containing instant `t` (days since 1970-01-01 in the UTC+8 wall calendar).
Python's `date` comparison agrees with comparison of these indices. -/
def localDate (t : Int) : Int := (t + shanghaiOffset).fdiv secsPerDay

/-- `datetime.now(timezone.utc).replace(hour=0, minute=0, second=0, microsecond=0)`
(main.py line 265): the start of the UTC day containing `t`. -/
def startOfUtcDay (t : Int) : Int := secsPerDay * (t.fdiv secsPerDay)

/-- Start of the *local* (UTC+8) day containing `t`.  This is what the spec's
"reference-day-start ... in the configured local timezone" denotes; the code
itself anchors the expansion window at `startOfUtcDay` instead. -/
def startOfLocalDay (t : Int) : Int := secsPerDay * localDate t - shanghaiOffset

/-- `timedelta(days=365)` (main.py line 266). -/
def horizonSecs : Int := 365 * 86400

/-- The minute printed by `start_time.strftime("%Y-%m-%d %H:%M")`
(main.py line 668), as a minute index: two instants produce the same formatted
string iff they fall in the same local wall-clock minute, i.e. iff these
indices agree (the UTC+8 offset is a whole number of minutes). -/
def minuteKey (t : Int) : Int := (t + shanghaiOffset).fdiv 60

/-! ## Recurrence rules

The `RRULE` property as handed to `dateutil.rrulestr` (main.py line 263),
after the UNTIL normalisation of lines 254-260 (UNTIL is stored here as an
absolute instant; converting a tz-aware datetime between timezones does not
change the instant).  The embedding models the uniform frequencies
SECONDLY / MINUTELY / HOURLY / DAILY / WEEKLY, whose occurrence streams are
arithmetic progressions on the absolute timeline (the rule is evaluated on
UTC datetimes, where these steps are exact); the calendar-arithmetic
frequencies (MONTHLY, YEARLY) and BYxxx refinements are outside the modelled
fragment — no claim depends on their generated instants. -/

structure RRuleStr where
  freq : String
  interval : Int
  untilT : Option Int
  count : Option Nat
deriving Repr, DecidableEq

/-- A successfully parsed rule: `step` is the distance in seconds between
consecutive generated instants. -/
structure RRule where
  step : Int
  untilT : Option Int
  count : Option Nat
deriving Repr, DecidableEq

/-- Seconds per frequency unit; `none` for a frequency outside the modelled
grammar (a malformed frequency makes `dateutil.rrulestr` raise `ValueError`). -/
def freqStep (f : String) : Option Int :=
  if f = "SECONDLY" then some 1
  else if f = "MINUTELY" then some 60
  else if f = "HOURLY" then some 3600
  else if f = "DAILY" then some 86400
  else if f = "WEEKLY" then some 604800
  else none

/-- `dateutil.rrule.rrulestr(...)` (main.py line 263): fails on an
unparseable frequency or a non-positive interval.  There is **no** exception
handler around this call in `_parse_ics_file`, so a failure here propagates
as a Python exception; the embedding therefore returns `Except`. -/
def rrulestrParse (rs : RRuleStr) : Except String RRule :=
  match freqStep rs.freq with
  | none => .error "invalid frequency"
  | some s =>
      if 1 ≤ rs.interval then .ok ⟨s * rs.interval, rs.untilT, rs.count⟩
      else .error "interval must be a positive integer"

/-- `rrule.between(after, before, inc=True)` (main.py line 268): the rule's
generated instants `dtstart + k * step` (for `k` below COUNT when present,
and not exceeding UNTIL when present) that satisfy `after ≤ t ≤ before`,
in ascending order.  The enumeration bound `kMax` covers every `k` whose
instant can be ≤ `before`; the filter enforces the actual conditions. -/
def ruleBetween (r : RRule) (dtstart after before : Int) : List Int :=
  let kMax : Nat :=
    if before < dtstart then 0 else (before - dtstart).toNat / r.step.toNat + 1
  let kBound : Nat :=
    match r.count with
    | some n => min n kMax
    | none => kMax
  ((List.range kBound).map (fun k => dtstart + r.step * k)).filter
    (fun t =>
      after ≤ t && t ≤ before &&
        (match r.untilT with | some u => t ≤ u | none => true))

/-! ## Calendar events and expansion -/

/-- One `VEVENT` block after the normalisation of main.py lines 243-249:
`dtstart` / `dtend` are fully timezone-resolved absolute instants (bare
dates were combined with midnight, naive datetimes were tagged UTC+8). -/
structure VEvent where
  summary : String
  description : String
  location : String
  dtstart : Int
  dtend : Int
  rrule : Option RRuleStr
deriving Repr, DecidableEq

/-- One entry of the `courses` list built by `_parse_ics_file`. -/
structure Course where
  summary : String
  description : String
  location : String
  startTime : Int
  endTime : Int
deriving Repr, DecidableEq

/-- The occurrence dict appended for a rule-generated instant `t`
(main.py lines 270-273): `end_time = occurrence_local + course_duration`
where `course_duration = dtend - dtstart` (line 251). -/
def courseOf (ev : VEvent) (t : Int) : Course :=
  ⟨ev.summary, ev.description, ev.location, t, t + (ev.dtend - ev.dtstart)⟩

/-- Processing of one `VEVENT` inside `_parse_ics_file` (main.py lines
253-279), with `now` the instant at which the parse runs.  Recurring: the
rule is evaluated with `dtstart` converted to UTC (same instant) and
enumerated over `[start_of_today_utc, start_of_today_utc + 365 days]`
inclusive; each instant is converted back to UTC+8 (same instant) and paired
with the fixed duration.  Non-recurring: emitted iff `dtstart.date() >= today`
where `today = datetime.now(shanghai_tz).date()` (lines 232, 275).
A rule rejected by `rrulestr` raises — there is no handler — so the error
propagates. -/
def expandEvent (now : Int) (ev : VEvent) : Except String (List Course) :=
  match ev.rrule with
  | some rs =>
      match rrulestrParse rs with
      | .error e => .error e
      | .ok r =>
          let lo := startOfUtcDay now
          let hi := lo + horizonSecs
          .ok ((ruleBetween r ev.dtstart lo hi).map (courseOf ev))
  | none =>
      .ok (if localDate now ≤ localDate ev.dtstart then [courseOf ev ev.dtstart] else [])

/-- The `for component in cal.walk()` loop of `_parse_ics_file` (lines
234-279), restricted to the `VEVENT` components: occurrences accumulate in
component order; an exception raised while processing any component aborts
the whole loop (no handler inside the loop). -/
def parseEvents (now : Int) : List VEvent → Except String (List Course)
  | [] => .ok []
  | ev :: evs =>
      match expandEvent now ev with
      | .error e => .error e
      | .ok cs =>
          match parseEvents now evs with
          | .error e => .error e
          | .ok rest => .ok (cs ++ rest)

/-! ## The occurrence cache (`self.course_cache`) -/

/-- A key of `self.course_cache`.  `_parse_ics_file` receives a
`pathlib.Path` object when called from `show_today_schedule` (main.py line
303) and `show_group_schedule` (line 348), but the string `str(path)` when
called from the reminder task (line 659); the rebinding invalidation
(lines 180-181) deletes only `str(path)`.  A `Path` and its `str` are
**distinct** dict keys in Python (`Path.__eq__` against a `str` is false and
their hashes differ), so the key carries its representation: `pathKey p`
models the `Path` object for path `p`, `strKey p` models the string `p`.
Both designate the same underlying file (`open` accepts either). -/
inductive CacheKey where
  | pathKey (path : String)
  | strKey (path : String)
deriving Repr, DecidableEq

/-- `self.course_cache : Dict[str, List[Dict]]` (in fact keyed by whatever
object the caller passed), modelled as an association list with dict
semantics (lookup finds the unique binding; insertion overwrites; deletion
removes). -/
abbrev Cache := List (CacheKey × List Course)

def cacheLookup : Cache → CacheKey → Option (List Course)
  | [], _ => none
  | (k, v) :: rest, key => if k = key then some v else cacheLookup rest key

/-- `self.course_cache[file_path] = courses` (main.py line 282). -/
def cacheInsert (c : Cache) (key : CacheKey) (v : List Course) : Cache :=
  (key, v) :: c.filter (fun e => e.fst ≠ key)

/-- The cache invalidation performed on a successful rebinding
(main.py lines 180-181: `if str(path) in cache: del cache[str(path)]`) —
removes the entry for the given key, a no-op when absent.  The rebinding
handler only ever calls this with a `strKey`. -/
def cacheErase (c : Cache) (key : CacheKey) : Cache :=
  c.filter (fun e => e.fst ≠ key)

/-- Outcome of one `_parse_ics_file` call: the returned value (or the
propagated exception), the cache afterwards, and how many times the
underlying file was opened (0 on a cache hit, 1 otherwise). -/
structure ParseResult where
  result : Except String (List Course)
  cache : Cache
  reads : Nat
deriving Repr

/-- `_parse_ics_file` (main.py lines 216-283).  `key` is the object the caller
passed for `file_path` (a `Path` or a `str`, see `CacheKey`); `content` is
what reading the file yields: `none` when `open` raises
`FileNotFoundError`/`IOError` (the one handled failure — the function logs
and returns `[]` without caching), and `some evs` for a readable calendar
with VEVENT components `evs`.  On a cache hit the file is not read.  On a
successful parse the result is stored in the cache under `key`; if expansion
raises, the exception propagates and the cache is left unchanged (line 282
is never reached). -/
def parseIcsFile (cache : Cache) (key : CacheKey) (content : Option (List VEvent))
    (now : Int) : ParseResult :=
  match cacheLookup cache key with
  | some cs => ⟨.ok cs, cache, 0⟩
  | none =>
      match content with
      | none => ⟨.ok [], cache, 1⟩
      | some evs =>
          match parseEvents now evs with
          | .error e => ⟨.error e, cache, 1⟩
          | .ok cs => ⟨.ok cs, cacheInsert cache key cs, 1⟩

/-! ## Status classification -/

/-- The status block of `_generate_schedule_image` (main.py lines 490-514),
returning `(status_text, detail_text)`.  `(end_time - now).seconds` is the
`timedelta.seconds` field, i.e. the non-negative remainder modulo one day of
the (here non-negative) difference; `//` is floor division. -/
def statusOf (startT endT : Option Int) (now : Int) : String × String :=
  match startT, endT with
  | some s, some e =>
      if s ≤ now ∧ now < e then
        let remainingMinutes := ((e - now).emod 86400).fdiv 60
        let h := remainingMinutes.fdiv 60
        let m := remainingMinutes.emod 60
        ("进行中",
          if remainingMinutes > 60 then s!"剩余 {h} 小时 {m} 分钟"
          else s!"剩余 {remainingMinutes} 分钟")
      else if now < s then
        let deltaMinutes := ((s - now).emod 86400).fdiv 60
        let h := deltaMinutes.fdiv 60
        let m := deltaMinutes.emod 60
        ("下一节",
          if deltaMinutes > 60 then s!"{h} 小时 {m} 分钟后"
          else s!"{deltaMinutes} 分钟后")
      else ("已结束", "今日所有课程已结束")
  | _, _ => ("已结束", "今日所有课程已结束")

/-- `ImageGenerator._format_duration` (image_generator.py lines 148-165). -/
def formatDuration (totalMinutes : Int) (pre suf : String) : String :=
  if totalMinutes > 60 then
    let h := totalMinutes.fdiv 60
    let m := totalMinutes.emod 60
    s!"{pre}{h} 小时 {m} 分钟{suf}"
  else s!"{pre}{totalMinutes} 分钟{suf}"

/-- `ImageGenerator._get_finished_status` (image_generator.py lines 167-184). -/
def getFinishedStatus (dateType : String) : String × String :=
  ("已结束",
    if dateType = "today" then "今日所有课程已结束"
    else if dateType = "tomorrow" then "明天所有课程已结束"
    else s!"{dateType}所有课程已结束")

/-- `ImageGenerator._calculate_time_delta` (image_generator.py lines
112-146).  `int((start_time - now).total_seconds())` is exact on the
integer-second timeline. -/
def calculateTimeDelta (startT endT : Option Int) (now : Int) (dateType : String) :
    String × String :=
  match startT, endT with
  | some s, some e =>
      let totalSecondsStart := s - now
      let totalSecondsEnd := e - now
      if totalSecondsStart < 0 ∧ 0 ≤ totalSecondsEnd then
        ("进行中", formatDuration (totalSecondsEnd.fdiv 60) "剩余" "")
      else if totalSecondsStart > 0 then
        ("下一节", formatDuration (totalSecondsStart.fdiv 60) "" "后")
      else getFinishedStatus dateType
  | _, _ => getFinishedStatus dateType

/-! ## Query engine (`ScheduleHelper.get_schedule_for_date`) -/

/-- Ordering of courses by start instant, the key of
`target_courses.sort(key=lambda x: x["start_time"])`. -/
def startLE (a b : Course) : Prop := a.startTime ≤ b.startTime

instance : DecidableRel startLE := fun a b => Int.decLe a.startTime b.startTime

instance : IsTotal Course startLE := ⟨fun a b => Int.le_total a.startTime b.startTime⟩

instance : IsTrans Course startLE :=
  ⟨fun _ _ _ hab hbc => Int.le_trans hab hbc⟩

/-- The filter of `get_schedule_for_date` (schedule_helper.py lines 34-42):
keep a course iff its start falls on `targetDate`; when `targetDate` is
today's local date, additionally require `start_time > now`. -/
def scheduleFilter (targetDate now : Int) (c : Course) : Bool :=
  if localDate c.startTime = targetDate then
    if targetDate = localDate now then decide (now < c.startTime) else true
  else false

/-- The schedule computation of `ScheduleHelper.get_schedule_for_date`
(schedule_helper.py lines 33-54): filter the parsed courses to the target
date (with the today-only time filter), then sort ascending by start time.
Python's `list.sort` and `insertionSort` are both stable sorts by the same
key, hence produce the same list. -/
def getScheduleForDate (courses : List Course) (targetDate now : Int) : List Course :=
  List.insertionSort startLE (courses.filter (scheduleFilter targetDate now))

/-! ## Reminder scanner (`_reminder_task`) -/

/-- One notification actually sent by `context.send_message`
(main.py lines 677-685), identified by recipient and occurrence start. -/
structure Notif where
  uid : String
  startTime : Int
deriving Repr, DecidableEq

/-- A `sent_reminders` element: `(user_id, start_time.strftime("%Y-%m-%d %H:%M"))`,
the formatted string represented by its minute index (see `minuteKey`). -/
abbrev ReminderKey := String × Int

/-- Result of scanning one user's course list: notifications sent, the
`sent_reminders` set afterwards, and `some e` when an exception escaped
(e.g. `send_message` failed) — aborting the rest of this user's courses
and, upstream, the rest of the sweep. -/
structure ScanOut where
  notifs : List Notif
  sent : List ReminderKey
  err : Option String
deriving Repr

/-- The inner `for course in today_courses` loop of `_reminder_task`
(main.py lines 662-687): for each course, fire iff `1800 <= start - now < 1860`
and the minute-resolution key is not in `sent_reminders`; the key is recorded
only after a successful send (record-after-send).  `sendFails` models
`context.send_message` raising for this user; the exception escapes the loop
(there is no per-user handler). -/
def scanCourses (uid : String) (now : Int) (sendFails : Bool) :
    List ReminderKey → List Course → ScanOut
  | sent, [] => ⟨[], sent, none⟩
  | sent, c :: cs =>
      let timeDiff := c.startTime - now
      if 1800 ≤ timeDiff ∧ timeDiff < 1860 then
        let key : ReminderKey := (uid, minuteKey c.startTime)
        if key ∈ sent then scanCourses uid now sendFails sent cs
        else if sendFails then ⟨[], sent, some "send_message failed"⟩
        else
          let o := scanCourses uid now sendFails (key :: sent) cs
          ⟨⟨uid, c.startTime⟩ :: o.notifs, o.sent, o.err⟩
      else scanCourses uid now sendFails sent cs

/-- `today_courses = [c for c in courses if c["start_time"].date() == now.date()]`
(main.py line 660) followed by the reminder loop. -/
def scanUser (uid : String) (now : Int) (sendFails : Bool) (sent : List ReminderKey)
    (courses : List Course) : ScanOut :=
  scanCourses uid now sendFails sent
    (courses.filter (fun c => localDate c.startTime = localDate now))

/-- One user as seen by a reminder sweep (main.py lines 651-659):
the reminder flag, whether the user's ics file exists, its path, its
content (`none` = unreadable at `open`), and whether `send_message`
raises for this user. -/
structure UserEntry where
  uid : String
  reminderOn : Bool
  fileExists : Bool
  path : String
  events : Option (List VEvent)
  sendFails : Bool
deriving Repr

/-- State and output of processing one user inside a sweep. -/
structure StepOut where
  notifs : List Notif
  cache : Cache
  sent : List ReminderKey
  err : Option String
deriving Repr

/-- Processing of one user inside the sweep (main.py lines 651-687):
skip when reminders are off or the file is missing; otherwise parse via the
shared cache (the reminder task passes `str(ics_file_path)`, line 659, hence
a `strKey`; a parse exception propagates) and run the reminder loop. -/
def processUser (now : Int) (cache : Cache) (sent : List ReminderKey)
    (u : UserEntry) : StepOut :=
  if !u.reminderOn then ⟨[], cache, sent, none⟩
  else if !u.fileExists then ⟨[], cache, sent, none⟩
  else
    let pr := parseIcsFile cache (.strKey u.path) u.events now
    match pr.result with
    | .error e => ⟨[], pr.cache, sent, some e⟩
    | .ok cs =>
        let o := scanUser u.uid now u.sendFails sent cs
        ⟨o.notifs, pr.cache, o.sent, o.err⟩

/-- One sweep of `_reminder_task` (the body of the `try:` block, main.py
lines 642-688, here for one group's user list).  The `try/except` encloses
the **whole** user loop: the first exception raised while processing a user
is caught at line 689, abandoning the remaining users of this sweep; the
sweep function itself always returns (so the 60-second loop continues). -/
def sweep (now : Int) : Cache → List ReminderKey → List UserEntry →
    List Notif × Cache × List ReminderKey
  | cache, sent, [] => ([], cache, sent)
  | cache, sent, u :: us =>
      let o := processUser now cache sent u
      match o.err with
      | some _ => (o.notifs, o.cache, o.sent)
      | none =>
          let r := sweep now o.cache o.sent us
          (o.notifs ++ r.fst, r.snd.fst, r.snd.snd)

/-! ## Concrete instances used in counterexamples and witnesses -/

/-- A daily-recurring event whose `dtstart` sits exactly at the far end of the
code's UTC-anchored window when the parse runs at instant 0. -/
def evC1 : VEvent := ⟨"Math", "", "Room 1", 31536000, 31539600, some ⟨"DAILY", 1, none, none⟩⟩

/-- A well-formed, non-recurring event on the local day of instant 36000. -/
def evGood : VEvent := ⟨"Eng", "", "R2", 39600, 43200, none⟩

/-- A different well-formed, non-recurring event on the same local day: the
content of the re-uploaded calendar file after a rebinding. -/
def evGood2 : VEvent := ⟨"CS", "", "R5", 46800, 50400, none⟩

/-- An event with an unparseable recurrence frequency. -/
def evBadRule : VEvent := ⟨"Bad", "", "R3", 39600, 43200, some ⟨"FORTNIGHTLY", 1, none, none⟩⟩

/-- A non-recurring event starting 1801 s after instant 36000 (reminder window). -/
def evReminder : VEvent := ⟨"Phys", "", "R4", 37801, 41401, none⟩

/-- Two occurrences 30 s apart, in the same local wall-clock minute, both
inside the reminder window relative to instant 0. -/
def cA : Course := ⟨"A", "", "", 1800, 5400⟩

def cB : Course := ⟨"B", "", "", 1830, 5430⟩

/-- An occurrence starting 1801 s after instant 0. -/
def cW : Course := ⟨"W", "", "", 1801, 5401⟩

/-- A reminder-enabled user whose calendar has a malformed recurrence rule. -/
def badUser : UserEntry := ⟨"bad", true, true, "bad.ics", some [evBadRule], false⟩

/-- A reminder-enabled user with a course starting 1801 s after instant 36000. -/
def goodUser : UserEntry := ⟨"good", true, true, "good.ics", some [evReminder], false⟩

/-! ## Shared helper lemmas -/

theorem cacheLookup_insert (c : Cache) (key : CacheKey) (v : List Course) :
    cacheLookup (cacheInsert c key v) key = some v := by
  simp [cacheInsert, cacheLookup]

theorem cacheLookup_erase (c : Cache) (key : CacheKey) :
    cacheLookup (cacheErase c key) key = none := by
  induction c with
  | nil => rfl
  | cons e rest ih =>
      by_cases h : e.fst = key
      · simpa [cacheErase, List.filter, h] using ih
      · simpa [cacheErase, List.filter, h, cacheLookup] using ih

/-- Deleting one dict key leaves the entries of every other key untouched —
in particular, deleting `strKey p` does not affect the `pathKey p` entry. -/
theorem cacheLookup_erase_ne (c : Cache) (k j : CacheKey) (hne : j ≠ k) :
    cacheLookup (cacheErase c k) j = cacheLookup c j := by
  have hkj : ¬k = j := fun hh => hne hh.symm
  induction c with
  | nil => rfl
  | cons e rest ih =>
      by_cases h : e.fst = k
      · have hj : ¬e.fst = j := by
          rw [h]
          exact hkj
        simpa [cacheErase, List.filter, h, cacheLookup, hj, hkj] using ih
      · by_cases hj : e.fst = j
        · simp [cacheErase, List.filter, h, cacheLookup, hj, hne]
        · simpa [cacheErase, List.filter, h, cacheLookup, hj, hne] using ih

/-- The status text computed by main.py lines 494-514, extracted from the pair. -/
theorem statusOf_fst (s e now : Int) :
    (statusOf (some s) (some e) now).fst =
      if s ≤ now ∧ now < e then "进行中"
      else if now < s then "下一节" else "已结束" := by
  dsimp only [statusOf]
  split_ifs <;> rfl

/-- The status text computed by image_generator.py lines 125-146. -/
theorem calculateTimeDelta_fst (s e now : Int) (dateType : String) :
    (calculateTimeDelta (some s) (some e) now dateType).fst =
      if s - now < 0 ∧ 0 ≤ e - now then "进行中"
      else if s - now > 0 then "下一节" else "已结束" := by
  dsimp only [calculateTimeDelta, getFinishedStatus]
  split_ifs <;> rfl

/-! ## Claim C3: cache coherence of `_parse_ics_file` -/

/-- C3 as stated is false: the rebinding invalidation deletes only the
`str(path)` dict key (main.py lines 180-181), while `show_today_schedule`
and `show_group_schedule` call `_parse_ics_file` with the `Path` object
(lines 303, 348) — a distinct dict key.  After a rebinding, the Path-keyed
entry survives: the next Path-keyed parse performs no file read and returns
the stale pre-rebinding occurrences, although the re-uploaded file (here
`evGood2`) would parse to different ones. -/
theorem C3_counterexample :
    let r1 := parseIcsFile [] (.pathKey "u1.ics") (some [evGood]) 36000
    let r2 := parseIcsFile (cacheErase r1.cache (.strKey "u1.ics"))
        (.pathKey "u1.ics") (some [evGood2]) 36000
    r2.reads = 0 ∧ r2.result = .ok [⟨"Eng", "", "R2", 39600, 43200⟩] ∧
    parseEvents 36000 [evGood2] = .ok [⟨"CS", "", "R5", 46800, 50400⟩] :=
  ⟨rfl, rfl, rfl⟩

/-- C3 (amended): parsing the same calendar source twice with the same key
and no intervening invalidation reads and expands the underlying file
exactly once (the second call is served from the cache).  A successful
rebinding, however, removes only the `strKey` entry: a subsequent parse with
the `pathKey` (as performed by `show_today_schedule` and
`show_group_schedule`) is still served from the cache without reading the
re-uploaded file, returning the stale occurrence list, while a parse with
the `strKey` (as performed by the reminder task) does read the file
again. -/
theorem C3_claim (cache : Cache) (p : String) (evs evs2 : List VEvent)
    (cs : List Course) (now : Int)
    (hmissP : cacheLookup cache (.pathKey p) = none)
    (hmissS : cacheLookup cache (.strKey p) = none)
    (hparse : parseEvents now evs = .ok cs) :
    let r1 := parseIcsFile cache (.pathKey p) (some evs) now
    let r2 := parseIcsFile r1.cache (.pathKey p) (some evs) now
    let r3 := parseIcsFile (cacheErase r1.cache (.strKey p)) (.pathKey p)
        (some evs2) now
    let s1 := parseIcsFile cache (.strKey p) (some evs) now
    let s2 := parseIcsFile (cacheErase s1.cache (.strKey p)) (.strKey p)
        (some evs2) now
    r1.reads = 1 ∧ r1.result = .ok cs ∧
    r2.reads = 0 ∧ r2.result = .ok cs ∧
    r3.reads = 0 ∧ r3.result = .ok cs ∧
    s1.reads = 1 ∧ s2.reads = 1 := by
  have hne : (CacheKey.pathKey p) ≠ (CacheKey.strKey p) := fun h =>
    CacheKey.noConfusion h
  have h1 : parseIcsFile cache (.pathKey p) (some evs) now =
      ⟨.ok cs, cacheInsert cache (.pathKey p) cs, 1⟩ := by
    unfold parseIcsFile
    rw [hmissP]
    dsimp only
    rw [hparse]
  have hs1 : parseIcsFile cache (.strKey p) (some evs) now =
      ⟨.ok cs, cacheInsert cache (.strKey p) cs, 1⟩ := by
    unfold parseIcsFile
    rw [hmissS]
    dsimp only
    rw [hparse]
  have hlook3 : cacheLookup
      (cacheErase (cacheInsert cache (.pathKey p) cs) (.strKey p))
      (.pathKey p) = some cs := by
    rw [cacheLookup_erase_ne _ _ _ hne, cacheLookup_insert]
  refine ⟨by rw [h1], by rw [h1], ?_, ?_, ?_, ?_, by rw [hs1], ?_⟩
  · show (parseIcsFile (parseIcsFile cache (.pathKey p) (some evs) now).cache
      (.pathKey p) (some evs) now).reads = 0
    rw [h1]
    unfold parseIcsFile
    rw [cacheLookup_insert]
  · show (parseIcsFile (parseIcsFile cache (.pathKey p) (some evs) now).cache
      (.pathKey p) (some evs) now).result = .ok cs
    rw [h1]
    unfold parseIcsFile
    rw [cacheLookup_insert]
  · show (parseIcsFile
      (cacheErase (parseIcsFile cache (.pathKey p) (some evs) now).cache
        (.strKey p)) (.pathKey p) (some evs2) now).reads = 0
    rw [h1]
    unfold parseIcsFile
    rw [hlook3]
  · show (parseIcsFile
      (cacheErase (parseIcsFile cache (.pathKey p) (some evs) now).cache
        (.strKey p)) (.pathKey p) (some evs2) now).result = .ok cs
    rw [h1]
    unfold parseIcsFile
    rw [hlook3]
  · show (parseIcsFile
      (cacheErase (parseIcsFile cache (.strKey p) (some evs) now).cache
        (.strKey p)) (.strKey p) (some evs2) now).reads = 1
    rw [hs1]
    unfold parseIcsFile
    rw [cacheLookup_erase]
    dsimp only
    cases hp2 : parseEvents now evs2 <;> rfl

theorem C3_witness :
    let r1 := parseIcsFile [] (.pathKey "u1.ics") (some [evGood]) 36000
    let r2 := parseIcsFile r1.cache (.pathKey "u1.ics") (some [evGood]) 36000
    let r3 := parseIcsFile (cacheErase r1.cache (.strKey "u1.ics"))
        (.pathKey "u1.ics") (some [evGood2]) 36000
    let s1 := parseIcsFile [] (.strKey "u1.ics") (some [evGood]) 36000
    let s2 := parseIcsFile (cacheErase s1.cache (.strKey "u1.ics"))
        (.strKey "u1.ics") (some [evGood2]) 36000
    r1.reads = 1 ∧ r1.result = .ok [⟨"Eng", "", "R2", 39600, 43200⟩] ∧
    r2.reads = 0 ∧ r2.result = .ok [⟨"Eng", "", "R2", 39600, 43200⟩] ∧
    r3.reads = 0 ∧ r3.result = .ok [⟨"Eng", "", "R2", 39600, 43200⟩] ∧
    s1.reads = 1 ∧ s2.reads = 1 :=
  C3_claim [] "u1.ics" [evGood] [evGood2] [⟨"Eng", "", "R2", 39600, 43200⟩]
    36000 rfl rfl rfl

/-! ## Claim C10: unreadable source file is not cached -/

/-- C10: When the calendar source file cannot be read, `_parse_ics_file`
returns an empty occurrence list and stores no cache entry for that path
(main.py lines 222-228: the handled `open` failure returns `[]` before line
282 can run), so a later parse of the same path attempts to read the file
again instead of serving the empty result from the cache. -/
theorem C10_claim (cache : Cache) (key : CacheKey) (now : Int)
    (hmiss : cacheLookup cache key = none) :
    let r1 := parseIcsFile cache key none now
    r1.result = .ok [] ∧ r1.cache = cache ∧ r1.reads = 1 ∧
    (parseIcsFile r1.cache key none now).reads = 1 := by
  have h1 : parseIcsFile cache key none now = ⟨.ok [], cache, 1⟩ := by
    unfold parseIcsFile
    rw [hmiss]
  refine ⟨by rw [h1], by rw [h1], by rw [h1], ?_⟩
  show (parseIcsFile (parseIcsFile cache key none now).cache key none now).reads = 1
  rw [h1]
  unfold parseIcsFile
  rw [hmiss]

theorem C10_witness :
    let r1 := parseIcsFile [] (.pathKey "missing.ics") none 0
    r1.result = .ok [] ∧ r1.cache = [] ∧ r1.reads = 1 ∧
    (parseIcsFile r1.cache (.pathKey "missing.ics") none 0).reads = 1 :=
  C10_claim [] (.pathKey "missing.ics") 0 rfl

/-! ## Claim C7: duration rendering boundary -/

/-- C7: `_format_duration` renders "H 小时 M 分钟" iff the total minutes are
at least 61 (the code's test is `total_minutes > 60`), and "M 分钟"
otherwise; in particular exactly 60 minutes renders as "60 分钟", not
"1 小时 0 分钟". -/
theorem C7_claim (m : Int) (pre suf : String) :
    (61 ≤ m → formatDuration m pre suf =
      s!"{pre}{m.fdiv 60} 小时 {m.emod 60} 分钟{suf}") ∧
    (m < 61 → formatDuration m pre suf = s!"{pre}{m} 分钟{suf}") ∧
    formatDuration 60 "" "" = "60 分钟" ∧
    formatDuration 60 "" "" ≠ "1 小时 0 分钟" := by
  refine ⟨fun h => ?_, fun h => ?_, by rfl, by decide⟩
  · unfold formatDuration
    rw [if_pos (by omega)]
  · unfold formatDuration
    rw [if_neg (by omega)]

theorem C7_witness : formatDuration 61 "" "" = "1 小时 1 分钟" :=
  (C7_claim 61 "" "").1 (by decide)

/-! ## Claim C8: non-recurring templates -/

/-- C8: For a non-recurring event, expansion yields zero occurrences when its
start date (in the local timezone) is strictly before the reference day, and
exactly one occurrence — with the template's own start and end — when the
start date is on or after the reference day (main.py lines 274-279). -/
theorem C8_claim (now : Int) (ev : VEvent) (hnorec : ev.rrule = none) :
    (localDate ev.dtstart < localDate now → expandEvent now ev = .ok []) ∧
    (localDate now ≤ localDate ev.dtstart →
      expandEvent now ev =
        .ok [⟨ev.summary, ev.description, ev.location, ev.dtstart, ev.dtend⟩]) := by
  unfold expandEvent
  rw [hnorec]
  constructor
  · intro hlt
    rw [if_neg (by omega)]
  · intro hge
    rw [if_pos hge]
    have hend : ev.dtstart + (ev.dtend - ev.dtstart) = ev.dtend := by omega
    unfold courseOf
    rw [hend]

theorem C8_witness :
    expandEvent 36000 evGood = .ok [⟨"Eng", "", "R2", 39600, 43200⟩] :=
  (C8_claim 36000 evGood rfl).2 (by decide)

/-! ## Claim C1: expansion horizon window -/

/-- C1 as stated is false: the code anchors the recurrence window at the
start of the current **UTC** day (`start_of_today_utc`, main.py line 265),
not at the start of the local (UTC+8) day.  At reference instant 0
(08:00 local), a daily rule anchored at instant 31536000 produces an
occurrence whose start exceeds the claim's local-day-anchored upper bound
`startOfLocalDay 0 + horizonSecs = 31507200`. -/
theorem C1_counterexample :
    expandEvent 0 evC1 = .ok [⟨"Math", "", "Room 1", 31536000, 31539600⟩] ∧
    startOfLocalDay 0 + horizonSecs < 31536000 := by
  constructor
  · rfl
  · decide

/-- C1 (amended): every occurrence produced for a recurring template has its
start instant within the closed window
`[startOfUtcDay now, startOfUtcDay now + 365 days]` — the window is anchored
at the start of the current UTC day, not the local (UTC+8) day.  In
particular the rule enumeration is always bounded by the fixed horizon. -/
theorem C1_claim (now : Int) (ev : VEvent) (rs : RRuleStr) (cs : List Course)
    (hrec : ev.rrule = some rs) (hok : expandEvent now ev = .ok cs) :
    ∀ c ∈ cs, startOfUtcDay now ≤ c.startTime ∧
      c.startTime ≤ startOfUtcDay now + horizonSecs := by
  intro c hc
  unfold expandEvent at hok
  rw [hrec] at hok
  dsimp only at hok
  cases hp : rrulestrParse rs with
  | error e =>
      rw [hp] at hok
      exact absurd hok (by simp)
  | ok r =>
      rw [hp] at hok
      dsimp only at hok
      have hcs : (ruleBetween r ev.dtstart (startOfUtcDay now)
          (startOfUtcDay now + horizonSecs)).map (courseOf ev) = cs :=
        Except.ok.inj hok
      subst hcs
      obtain ⟨t, ht, rfl⟩ := List.mem_map.mp hc
      have hpred := (List.mem_filter.mp ht).2
      simp only [Bool.and_eq_true, decide_eq_true_eq] at hpred
      exact ⟨hpred.1.1, hpred.1.2⟩

theorem C1_witness :
    startOfUtcDay 0 ≤ (31536000 : Int) ∧
      (31536000 : Int) ≤ startOfUtcDay 0 + horizonSecs :=
  C1_claim 0 evC1 ⟨"DAILY", 1, none, none⟩
    [⟨"Math", "", "Room 1", 31536000, 31539600⟩] rfl rfl
    ⟨"Math", "", "Room 1", 31536000, 31539600⟩ (List.mem_singleton.mpr rfl)

/-! ## Claim C2: status classification boundaries -/

/-- C2 as stated is false for `_calculate_time_delta`
(image_generator.py lines 112-146): at `now = start` (here start 0, end
3600, now 0) it reports "已结束" (Finished), while the claim requires
InProgress whenever `start ≤ now < end` — which holds here. -/
theorem C2_counterexample :
    calculateTimeDelta (some 0) (some 3600) 0 "today" =
      ("已结束", "今日所有课程已结束") ∧
    ((0 : Int) ≤ 0 ∧ (0 : Int) < 3600) :=
  ⟨rfl, by decide⟩

/-- C2 (amended): the inline classifier of `_generate_schedule_image`
(main.py lines 494-514) satisfies the claimed characterisation —
进行中 (InProgress) iff `start ≤ now < end`, 下一节 (Upcoming) iff
`now < start`, 已结束 (Finished) iff `now ≥ end` — but
`_calculate_time_delta` (image_generator.py) instead returns InProgress iff
`start < now ≤ end`, Upcoming iff `now < start`, and Finished iff
`now = start` or `now > end`; so at `now = start` it reports Finished and at
`now = end` (with `start < end`) it reports InProgress. -/
theorem C2_claim (s e now : Int) (hse : s ≤ e) :
    ((statusOf (some s) (some e) now).fst = "进行中" ↔ s ≤ now ∧ now < e) ∧
    ((statusOf (some s) (some e) now).fst = "下一节" ↔ now < s) ∧
    ((statusOf (some s) (some e) now).fst = "已结束" ↔ e ≤ now) ∧
    ((calculateTimeDelta (some s) (some e) now "today").fst = "进行中" ↔
      s < now ∧ now ≤ e) ∧
    ((calculateTimeDelta (some s) (some e) now "today").fst = "下一节" ↔
      now < s) ∧
    ((calculateTimeDelta (some s) (some e) now "today").fst = "已结束" ↔
      now = s ∨ e < now) := by
  have hm := statusOf_fst s e now
  have hc := calculateTimeDelta_fst s e now "today"
  refine ⟨?_, ?_, ?_, ?_, ?_, ?_⟩
  · rw [hm]
    split_ifs with h1 h2
    · exact iff_of_true rfl h1
    · exact iff_of_false (by decide) h1
    · exact iff_of_false (by decide) h1
  · rw [hm]
    split_ifs with h1 h2
    · exact iff_of_false (by decide) (by omega)
    · exact iff_of_true rfl h2
    · exact iff_of_false (by decide) h2
  · rw [hm]
    split_ifs with h1 h2
    · exact iff_of_false (by decide) (by omega)
    · exact iff_of_false (by decide) (by omega)
    · exact iff_of_true rfl (by omega)
  · rw [hc]
    split_ifs with h1 h2
    · exact iff_of_true rfl (by omega)
    · exact iff_of_false (by decide) (by omega)
    · exact iff_of_false (by decide) (by omega)
  · rw [hc]
    split_ifs with h1 h2
    · exact iff_of_false (by decide) (by omega)
    · exact iff_of_true rfl (by omega)
    · exact iff_of_false (by decide) (by omega)
  · rw [hc]
    split_ifs with h1 h2
    · exact iff_of_false (by decide) (by omega)
    · exact iff_of_false (by decide) (by omega)
    · exact iff_of_true rfl (by omega)

theorem C2_witness : (statusOf (some 0) (some 3600) 1800).fst = "进行中" :=
  ((C2_claim 0 3600 1800 (by decide)).1).mpr (by decide)

/-! ## Claim C5: malformed recurrence rules -/

/-- C5 as stated is false: there is no exception handler inside the VEVENT
loop of `_parse_ics_file`, so a malformed rule aborts the whole parse.
Concretely, a calendar holding a well-formed sibling followed by a template
with frequency "FORTNIGHTLY" parses to an error and yields no occurrences at
all, although the sibling alone would yield its occurrence. -/
theorem C5_counterexample :
    parseEvents 36000 [evGood, evBadRule] = .error "invalid frequency" ∧
    parseEvents 36000 [evGood] = .ok [⟨"Eng", "", "R2", 39600, 43200⟩] :=
  ⟨rfl, rfl⟩

/-- C5 (amended): a template whose recurrence rule is rejected by the rule
parser makes the entire calendar parse raise: the exception propagates out of
`_parse_ics_file` and no occurrences are returned for the malformed template
or any sibling template. -/
theorem C5_claim (now : Int) (evs : List VEvent) (ev : VEvent) (rs : RRuleStr)
    (msg : String) (hmem : ev ∈ evs) (hrule : ev.rrule = some rs)
    (hbad : rrulestrParse rs = .error msg) :
    ∃ e, parseEvents now evs = .error e := by
  induction evs with
  | nil => cases hmem
  | cons a rest ih =>
      rcases List.mem_cons.mp hmem with rfl | hmem2
      · have hexp : expandEvent now ev = .error msg := by
          unfold expandEvent
          rw [hrule]
          dsimp only
          rw [hbad]
        refine ⟨msg, ?_⟩
        unfold parseEvents
        rw [hexp]
      · cases hexp : expandEvent now a with
        | error e =>
            refine ⟨e, ?_⟩
            unfold parseEvents
            rw [hexp]
        | ok cs =>
            obtain ⟨e, he⟩ := ih hmem2
            refine ⟨e, ?_⟩
            unfold parseEvents
            rw [hexp]
            dsimp only
            rw [he]

theorem C5_witness : ∃ e, parseEvents 36000 [evGood, evBadRule] = .error e :=
  C5_claim 36000 [evGood, evBadRule] evBadRule ⟨"FORTNIGHTLY", 1, none, none⟩
    "invalid frequency" (List.mem_cons_of_mem _ (List.mem_singleton.mpr rfl))
    rfl rfl

/-! ## Claim C4: reminder window and idempotence -/

/-- Closed form of one reminder scan over a single course. -/
theorem scanUser_single (uid : String) (now : Int) (sent : List ReminderKey)
    (c : Course) :
    scanUser uid now false sent [c] =
      if localDate c.startTime = localDate now then
        if 1800 ≤ c.startTime - now ∧ c.startTime - now < 1860 then
          if (uid, minuteKey c.startTime) ∈ sent then ⟨[], sent, none⟩
          else ⟨[⟨uid, c.startTime⟩], (uid, minuteKey c.startTime) :: sent, none⟩
        else ⟨[], sent, none⟩
      else ⟨[], sent, none⟩ := by
  unfold scanUser
  by_cases hd : localDate c.startTime = localDate now
  · rw [if_pos hd]
    have hf : List.filter (fun x => decide (localDate x.startTime = localDate now)) [c]
        = [c] := by simp [hd]
    rw [hf]
    show scanCourses uid now false sent [c] = _
    by_cases hw : 1800 ≤ c.startTime - now ∧ c.startTime - now < 1860
    · by_cases hk : (uid, minuteKey c.startTime) ∈ sent
      · rw [if_pos hw, if_pos hk]
        dsimp only [scanCourses]
        rw [if_pos hw, if_pos hk]
      · rw [if_pos hw, if_neg hk]
        dsimp only [scanCourses]
        rw [if_pos hw, if_neg hk]
        rfl
    · rw [if_neg hw]
      dsimp only [scanCourses]
      rw [if_neg hw]
  · rw [if_neg hd]
    have hf : List.filter (fun x => decide (localDate x.startTime = localDate now)) [c]
        = [] := by simp [hd]
    rw [hf]
    rfl

/-- C4 as stated is false: `sent_reminders` keys use
`start_time.strftime("%Y-%m-%d %H:%M")` (main.py line 668), which truncates
the start to the minute.  Two occurrences 30 s apart in the same wall-clock
minute, both with time-until-start inside [1800 s, 1860 s), produce only one
notification in a single scan, although the second one's exact
(user, occurrence-start) pair was never recorded. -/
theorem C4_counterexample :
    (scanUser "u" 0 false [] [cA, cB]).notifs = [⟨"u", 1800⟩] ∧
    (1800 ≤ (1830 : Int) - 0 ∧ (1830 : Int) - 0 < 1860) ∧
    (⟨"u", 1830⟩ : Notif) ∉ (scanUser "u" 0 false [] [cA, cB]).notifs := by
  refine ⟨by decide, by decide, by decide⟩

/-- C4 (amended): in a reminder scan, a notification is emitted for a
(today's) occurrence iff its time-until-start lies in [1800 s, 1860 s) and
the key (user, occurrence start **truncated to the minute**) has not been
recorded before it is reached in scan order; consequently, across two scans
60 s apart where the start−now delta goes from 1801 s to 1741 s, exactly one
notification is sent. -/
theorem C4_claim (uid : String) (now : Int) (sent : List ReminderKey)
    (c : Course) :
    ((scanUser uid now false sent [c]).notifs =
      if localDate c.startTime = localDate now ∧ 1800 ≤ c.startTime - now ∧
          c.startTime - now < 1860 ∧ (uid, minuteKey c.startTime) ∉ sent
      then [⟨uid, c.startTime⟩] else []) ∧
    (localDate c.startTime = localDate now → c.startTime - now = 1801 →
      (uid, minuteKey c.startTime) ∉ sent →
      (scanUser uid now false sent [c]).notifs.length +
        (scanUser uid (now + 60) false (scanUser uid now false sent [c]).sent
          [c]).notifs.length = 1) := by
  constructor
  · rw [scanUser_single]
    split_ifs <;> first | rfl | (exfalso; tauto)
  · intro hd h1801 hk
    have hfst : scanUser uid now false sent [c] =
        ⟨[⟨uid, c.startTime⟩], (uid, minuteKey c.startTime) :: sent, none⟩ := by
      rw [scanUser_single, if_pos hd, if_pos (by omega), if_neg hk]
    rw [hfst]
    rw [scanUser_single]
    by_cases hd2 : localDate c.startTime = localDate (now + 60)
    · rw [if_pos hd2, if_neg (by omega)]
      rfl
    · rw [if_neg hd2]
      rfl

theorem C4_witness :
    (scanUser "u" 0 false [] [cW]).notifs.length +
      (scanUser "u" 60 false (scanUser "u" 0 false [] [cW]).sent
        [cW]).notifs.length = 1 :=
  (C4_claim "u" 0 [] cW).2 (by decide) (by decide) (by decide)

/-! ## Claim C6: per-date schedule query -/

/-- C6: `get_schedule_for_date` returns exactly the occurrences whose local
start date equals the queried date — additionally dropping the ones whose
start is at-or-before "now" when the queried date is today, and applying no
time-of-day filter otherwise — ordered ascending by start instant
(schedule_helper.py lines 33-54).  "Exactly" is stated as a permutation of
the claim-side filter, and "ordered" as sortedness under `startLE`. -/
theorem C6_claim (courses : List Course) (targetDate now : Int) :
    List.Sorted startLE (getScheduleForDate courses targetDate now) ∧
    (getScheduleForDate courses targetDate now).Perm
      (courses.filter (fun c =>
        decide (localDate c.startTime = targetDate) &&
          (!decide (targetDate = localDate now) || decide (now < c.startTime)))) := by
  have hfil : courses.filter (scheduleFilter targetDate now) =
      courses.filter (fun c =>
        decide (localDate c.startTime = targetDate) &&
          (!decide (targetDate = localDate now) || decide (now < c.startTime))) := by
    apply List.filter_congr
    intro c _
    unfold scheduleFilter
    split_ifs with h1 h2 <;> simp_all
  constructor
  · exact List.sorted_insertionSort startLE _
  · unfold getScheduleForDate
    rw [hfil]
    exact List.perm_insertionSort startLE _

/-! ## Claim C9: per-user failure isolation in a reminder sweep -/

/-- C9 as stated is false: the `try` block of `_reminder_task` (main.py
lines 642-688) wraps the whole user loop, so a parse failure for one user
aborts the scan of the remaining users of that sweep.  Concretely, with a
first user whose calendar has a malformed rule and a second user owning an
in-window course, the sweep emits nothing, although the second user alone
would receive a notification. -/
theorem C9_counterexample :
    (sweep 36000 [] [] [badUser, goodUser]).fst = [] ∧
    (sweep 36000 [] [] [goodUser]).fst = [⟨"good", 37801⟩] :=
  ⟨rfl, rfl⟩

/-- C9 (amended): an exception while processing one user (a parse failure of
that user's calendar, or a failure sending that user's notification) aborts
the remainder of that sweep — the sweep's output is exactly the failing
user's partial output, whatever users remain — while a successfully
processed user contributes its notifications and the sweep continues with
the rest; the exception is caught outside the user loop, so the sweep
returns normally and the next scheduled sweep still runs. -/
theorem C9_claim (now : Int) (cache : Cache) (sent : List ReminderKey)
    (u : UserEntry) (us vs : List UserEntry) :
    ((processUser now cache sent u).err.isSome = true →
      sweep now cache sent (u :: vs) =
        ((processUser now cache sent u).notifs, (processUser now cache sent u).cache,
          (processUser now cache sent u).sent)) ∧
    ((processUser now cache sent u).err = none →
      sweep now cache sent (u :: us) =
        ((processUser now cache sent u).notifs ++
            (sweep now (processUser now cache sent u).cache
              (processUser now cache sent u).sent us).fst,
          (sweep now (processUser now cache sent u).cache
            (processUser now cache sent u).sent us).snd)) := by
  constructor
  · intro herr
    obtain ⟨e, he⟩ := Option.isSome_iff_exists.mp herr
    unfold sweep
    dsimp only
    rw [he]
  · intro hnone
    conv_lhs => unfold sweep
    dsimp only
    rw [hnone]

theorem C9_witness :
    sweep 36000 [] [] [badUser, goodUser] =
      ((processUser 36000 [] [] badUser).notifs,
        (processUser 36000 [] [] badUser).cache,
        (processUser 36000 [] [] badUser).sent) :=
  (C9_claim 36000 [] [] badUser [] [goodUser]).1 (by rfl)

end CourseSchedule
